import Mathlib

/-!
Verification of the CDC consumer module: a shallow embedding of the
broker connector, message loop, change normalizer, structured emitter
and liveness reporter, with theorems about the spec claims.

Payloads are values parsed from JSON text, modelled by the inductive
type JVal. Property access on a JavaScript value is modelled by jGet:
an object yields its binding for the key (or none, i.e. undefined);
any non-null non-object value yields undefined; access on null throws,
which the embedding handles explicitly at each access site.
-/

/-- A JSON value, the result of a successful JSON.parse. -/
inductive JVal where
  | null : JVal
  | bool : Bool → JVal
  | num : Int → JVal
  | str : String → JVal
  | arr : List JVal → JVal
  | obj : List (String × JVal) → JVal

/-- Object key lookup, first binding wins (parsed objects have unique keys). -/
def jLookup : List (String × JVal) → String → Option JVal
  | [], _ => none
  | (k, v) :: rest, key => if k = key then some v else jLookup rest key

/-- JavaScript property access on a non-null base: objects yield their
binding (none = undefined); primitives and arrays yield undefined for the
property names this module reads. Access on a null base throws and is
modelled separately at each access site. -/
def jGet : JVal → String → Option JVal
  | JVal.obj fs, key => jLookup fs key
  | _, _ => none

/-- Whether a value is JavaScript null. -/
def JVal.isNull : JVal → Bool
  | JVal.null => true
  | _ => false

/-- JavaScript truthiness of a value. -/
def truthyV : JVal → Bool
  | JVal.null => false
  | JVal.bool b => b
  | JVal.num n => n != 0
  | JVal.str s => s != ""
  | JVal.arr _ => true
  | JVal.obj _ => true

/-- JavaScript truthiness of a property-access result (undefined is falsy). -/
def truthy : Option JVal → Bool
  | none => false
  | some v => truthyV v

/-- The canonical Change Record built by processDatabaseChange. The
fields changeType through rawData are the initializer of the result
object; oldData and changeTimestamp are absent (none) unless assigned. -/
structure ChangeRecord where
  changeType : JVal
  database : JVal
  table : JVal
  primaryKey : JVal
  changes : JVal
  rawData : JVal
  oldData : Option JVal
  changeTimestamp : Option JVal

/-- The result object as first constructed, before the try block runs. -/
def initRecord (cdcData : JVal) : ChangeRecord :=
  { changeType := JVal.str "unknown"
    database := JVal.null
    table := JVal.null
    primaryKey := JVal.null
    changes := JVal.obj []
    rawData := cdcData
    oldData := none
    changeTimestamp := none }

/-- Step: if (cdcData.type) result.changeType = cdcData.type. -/
def applyType (cdcData : JVal) (r : ChangeRecord) : ChangeRecord :=
  match jGet cdcData "type" with
  | some v => if truthyV v then { r with changeType := v } else r
  | none => r

/-- Step: if (cdcData.database) result.database = cdcData.database. -/
def applyDatabase (cdcData : JVal) (r : ChangeRecord) : ChangeRecord :=
  match jGet cdcData "database" with
  | some v => if truthyV v then { r with database := v } else r
  | none => r

/-- Step: if (cdcData.table) result.table = cdcData.table. -/
def applyTable (cdcData : JVal) (r : ChangeRecord) : ChangeRecord :=
  match jGet cdcData "table" with
  | some v => if truthyV v then { r with table := v } else r
  | none => r

/-- Step: if (firstRow.id !== undefined) result.primaryKey = id-object.
Only called with a non-null firstRow; undefined is key absence. -/
def applyId (firstRow : JVal) (r : ChangeRecord) : ChangeRecord :=
  match jGet firstRow "id" with
  | some v => { r with primaryKey := JVal.obj [("id", v)] }
  | none => r

/-- Step: if (cdcData.old_data) result.oldData = cdcData.old_data. -/
def applyOld (cdcData : JVal) (r : ChangeRecord) : ChangeRecord :=
  if truthy (jGet cdcData "old_data")
  then { r with oldData := jGet cdcData "old_data" }
  else r

/-- Step: if (cdcData.ts or cdcData.timestamp is truthy) assign
result.changeTimestamp to cdcData.ts when truthy, else cdcData.timestamp
(JavaScript or-expression returns its first truthy operand). -/
def applyTs (cdcData : JVal) (r : ChangeRecord) : ChangeRecord :=
  if truthy (jGet cdcData "ts") || truthy (jGet cdcData "timestamp")
  then { r with changeTimestamp :=
          if truthy (jGet cdcData "ts")
          then jGet cdcData "ts" else jGet cdcData "timestamp" }
  else r

/-- The try block of processDatabaseChange. An error value carries the
partial result at the point where a TypeError is thrown: property access
on a null cdcData (the very first access, cdcData.type), or on a null
first row of cdcData.data (firstRow.id, thrown before result.changes is
assigned). The data branch is taken exactly when cdcData.data is a
non-empty array: a JavaScript array is always truthy and Array.isArray
with length greater than zero is this match. -/
def extractChange (cdcData : JVal) : Except ChangeRecord ChangeRecord :=
  if cdcData.isNull then Except.error (initRecord cdcData)
  else
    match jGet cdcData "data" with
    | some (JVal.arr (first :: rest)) =>
      if first.isNull then
        Except.error (applyTable cdcData (applyDatabase cdcData (applyType cdcData (initRecord cdcData))))
      else
        Except.ok (applyTs cdcData (applyOld cdcData
          { applyId first (applyTable cdcData (applyDatabase cdcData (applyType cdcData (initRecord cdcData))))
            with changes := JVal.arr (first :: rest) }))
    | _ =>
      Except.ok (applyTs cdcData (applyOld cdcData
        (applyTable cdcData (applyDatabase cdcData (applyType cdcData (initRecord cdcData))))))

/-- processDatabaseChange: builds the result object, runs the try block,
and on an internal error returns the partial result (the catch only logs).
Total: every input yields a Change Record. -/
def processDatabaseChange (cdcData : JVal) : ChangeRecord :=
  match extractChange cdcData with
  | Except.ok r => r
  | Except.error r => r

/-- The keys of an emitted JSON object, in serialization order. -/
def jKeys : JVal → List String
  | JVal.obj fs => fs.map Prod.fst
  | _ => []

/-- Whether a JSON object carries the given field. -/
def hasField (v : JVal) (key : String) : Bool :=
  (jGet v key).isSome

/-- A raw Kafka message as seen by eachMessage: value is the payload
body decoded to text (none models a null value buffer); offset and
timestamp are the broker-assigned strings. -/
structure RawMessage where
  value : Option String
  offset : String
  timestamp : String

/-- The object serialized to the structured log by processMessage
(lines building the logger.info JSON): wall-clock timestamp, fixed
source tag, broker metadata and the record fields changeType, table,
database, primaryKey and changes. -/
def buildLogEntry (now : String) (topic : String) (partition : Int)
    (offset : String) (kafkaTimestamp : String) (messageSize : Int)
    (pd : ChangeRecord) : JVal :=
  JVal.obj
    [ ("timestamp", JVal.str now)
    , ("source", JVal.str "database-cdc")
    , ("topic", JVal.str topic)
    , ("partition", JVal.num partition)
    , ("offset", JVal.str offset)
    , ("changeType", pd.changeType)
    , ("table", pd.table)
    , ("database", pd.database)
    , ("primaryKey", pd.primaryKey)
    , ("changes", pd.changes)
    , ("metadata", JVal.obj
        [ ("kafkaTimestamp", JVal.str kafkaTimestamp)
        , ("messageSize", JVal.num messageSize) ]) ]

/-- Observable actions of one processMessage call. -/
inductive MsgAction where
  | warnEmpty : MsgAction
  | logParseFailed : MsgAction
  | logRawMessage : String → MsgAction
  | emit : JVal → MsgAction

/-- processMessage: skips an empty or absent payload body with a
warning; parses the body with JSON.parse (passed in as parse, none
models a SyntaxError, which the inner catch logs before returning);
otherwise normalizes the payload and emits one structured log entry.
now is the wall clock read when the entry is built. -/
def processMessage (parse : String → Option JVal) (now : String)
    (topic : String) (partition : Int) (m : RawMessage) : List MsgAction :=
  match m.value with
  | none => [MsgAction.warnEmpty]
  | some s =>
    if s = "" then [MsgAction.warnEmpty]
    else
      match parse s with
      | none => [MsgAction.logParseFailed, MsgAction.logRawMessage s]
      | some cdcData =>
        [MsgAction.emit (buildLogEntry now topic partition m.offset m.timestamp
          (Int.ofNat s.length) (processDatabaseChange cdcData))]

/-- The message loop: eachMessage is invoked once per delivered message,
in order; each call is isolated, so the stream of observable actions is
the concatenation of the per-message actions. -/
def processMessages (parse : String → Option JVal) (now : String)
    (topic : String) (partition : Int) (ms : List RawMessage) : List MsgAction :=
  (ms.map (processMessage parse now topic partition)).flatten

/-- Lifecycle events that change the isRunning flag of the processor:
startSuccess is consumer.connect and subscribe succeeding inside start
(which then sets isRunning to true); stopSuccess is a stop call whose
consumer.disconnect succeeded (which then sets isRunning to false). -/
inductive LifeEvent where
  | startSuccess : LifeEvent
  | stopSuccess : LifeEvent

/-- The isRunning flag after one lifecycle event. -/
def stepRunning (_running : Bool) : LifeEvent → Bool
  | LifeEvent.startSuccess => true
  | LifeEvent.stopSuccess => false

/-- The isRunning flag after a sequence of lifecycle events, starting
from the constructor value false. -/
def runningAfter (events : List LifeEvent) : Bool :=
  events.foldl stepRunning false

/-- The JSON value returned by the health endpoint, given the current
isRunning flag and the current wall-clock time. -/
def healthResponse (running : Bool) (now : String) : JVal :=
  JVal.obj
    [ ("status", JVal.str (if running then "healthy" else "unhealthy"))
    , ("timestamp", JVal.str now)
    , ("service", JVal.str "cdc-consumer") ]

/-- Observable actions of a SIGTERM or SIGINT handler run. -/
inductive SigAction where
  | logReceived : SigAction
  | logStopping : SigAction
  | disconnectCall : SigAction
  | logStopped : SigAction
  | exitZero : SigAction
deriving DecidableEq

/-- The trace of a termination-signal handler: it logs, awaits
processor.stop, then calls process.exit(0). stop disconnects only when
isRunning is set; disconnect has no surrounding catch, so when it fails
the rejection propagates out of stop and out of the async handler, and
neither the remaining stop statements nor process.exit(0) run. -/
def signalHandlerTrace (isRunning : Bool) (disconnectFails : Bool) : List SigAction :=
  [SigAction.logReceived] ++
  (if isRunning then
    [SigAction.logStopping, SigAction.disconnectCall] ++
    (if disconnectFails then [] else [SigAction.logStopped, SigAction.exitZero])
  else [SigAction.exitZero])

/-- Outcome of one startup attempt against the external broker: whether
the admin connectivity probe (testKafkaConnection) succeeds, and whether
consumer.connect plus subscribe inside processor.start succeed. -/
structure AttemptOutcome where
  probeOk : Bool
  startOk : Bool

/-- Terminal state of the startup sequence. -/
inductive StartupResult where
  | running : Nat → StartupResult
  | exitStartFailure : StartupResult
  | exitRetriesExhausted : StartupResult
deriving DecidableEq

/-- The retry loop of startConsumer, from a given attempt number with a
given number of attempts remaining. A probe failure is thrown to the
loop, which exits the process after the last attempt and otherwise
sleeps and retries. When the probe succeeds, processor.start is awaited:
its own catch calls process.exit(1) on any connect or subscribe failure,
so a start failure terminates the process immediately on any attempt and
the retry branch of the loop is never reached for it; on success the
processor is connected, subscribed and running. -/
def runAttempts (env : Nat → AttemptOutcome) : Nat → Nat → StartupResult
  | _, 0 => StartupResult.exitRetriesExhausted
  | attempt, remaining + 1 =>
    if (env attempt).probeOk then
      if (env attempt).startOk then StartupResult.running attempt
      else StartupResult.exitStartFailure
    else
      if remaining = 0 then StartupResult.exitRetriesExhausted
      else runAttempts env (attempt + 1) remaining

/-- startConsumer: up to maxRetries = 10 attempts, numbered from 1. -/
def startConsumer (env : Nat → AttemptOutcome) : StartupResult :=
  runAttempts env 1 10

/-- All optional payload fields read by processDatabaseChange are absent
(undefined) on this payload. -/
def allOptionalAbsent (p : JVal) : Bool :=
  ["type", "database", "table", "data", "old_data", "ts", "timestamp"].all
    (fun k => (jGet p k).isNone)

/-- The extraction aborts partway through the try block: cdcData.data is
a non-empty array whose first row is null, so firstRow.id throws after
changeType, database and table are set but before changes, oldData and
changeTimestamp are. -/
def abortsAtFirstRow (p : JVal) : Bool :=
  match jGet p "data" with
  | some (JVal.arr (first :: _)) => first.isNull
  | _ => false

/-- A value is null exactly when it is the null constructor. -/
@[simp] theorem JVal.isNull_eq_true {v : JVal} : v.isNull = true ↔ v = JVal.null := by
  cases v <;> simp [JVal.isNull]

@[simp] theorem applyType_database (c : JVal) (r : ChangeRecord) :
    (applyType c r).database = r.database := by
  unfold applyType; split <;> (try split) <;> rfl

@[simp] theorem applyType_primaryKey (c : JVal) (r : ChangeRecord) :
    (applyType c r).primaryKey = r.primaryKey := by
  unfold applyType; split <;> (try split) <;> rfl

@[simp] theorem applyType_changes (c : JVal) (r : ChangeRecord) :
    (applyType c r).changes = r.changes := by
  unfold applyType; split <;> (try split) <;> rfl

@[simp] theorem applyType_rawData (c : JVal) (r : ChangeRecord) :
    (applyType c r).rawData = r.rawData := by
  unfold applyType; split <;> (try split) <;> rfl

@[simp] theorem applyType_changeTimestamp (c : JVal) (r : ChangeRecord) :
    (applyType c r).changeTimestamp = r.changeTimestamp := by
  unfold applyType; split <;> (try split) <;> rfl

@[simp] theorem applyDatabase_primaryKey (c : JVal) (r : ChangeRecord) :
    (applyDatabase c r).primaryKey = r.primaryKey := by
  unfold applyDatabase; split <;> (try split) <;> rfl

@[simp] theorem applyDatabase_changes (c : JVal) (r : ChangeRecord) :
    (applyDatabase c r).changes = r.changes := by
  unfold applyDatabase; split <;> (try split) <;> rfl

@[simp] theorem applyDatabase_rawData (c : JVal) (r : ChangeRecord) :
    (applyDatabase c r).rawData = r.rawData := by
  unfold applyDatabase; split <;> (try split) <;> rfl

@[simp] theorem applyDatabase_changeTimestamp (c : JVal) (r : ChangeRecord) :
    (applyDatabase c r).changeTimestamp = r.changeTimestamp := by
  unfold applyDatabase; split <;> (try split) <;> rfl

@[simp] theorem applyTable_primaryKey (c : JVal) (r : ChangeRecord) :
    (applyTable c r).primaryKey = r.primaryKey := by
  unfold applyTable; split <;> (try split) <;> rfl

@[simp] theorem applyTable_changes (c : JVal) (r : ChangeRecord) :
    (applyTable c r).changes = r.changes := by
  unfold applyTable; split <;> (try split) <;> rfl

@[simp] theorem applyTable_rawData (c : JVal) (r : ChangeRecord) :
    (applyTable c r).rawData = r.rawData := by
  unfold applyTable; split <;> (try split) <;> rfl

@[simp] theorem applyTable_changeTimestamp (c : JVal) (r : ChangeRecord) :
    (applyTable c r).changeTimestamp = r.changeTimestamp := by
  unfold applyTable; split <;> (try split) <;> rfl

@[simp] theorem applyId_changes (f : JVal) (r : ChangeRecord) :
    (applyId f r).changes = r.changes := by
  unfold applyId; split <;> rfl

@[simp] theorem applyId_rawData (f : JVal) (r : ChangeRecord) :
    (applyId f r).rawData = r.rawData := by
  unfold applyId; split <;> rfl

@[simp] theorem applyId_changeTimestamp (f : JVal) (r : ChangeRecord) :
    (applyId f r).changeTimestamp = r.changeTimestamp := by
  unfold applyId; split <;> rfl

@[simp] theorem applyOld_primaryKey (c : JVal) (r : ChangeRecord) :
    (applyOld c r).primaryKey = r.primaryKey := by
  unfold applyOld; split <;> rfl

@[simp] theorem applyOld_changes (c : JVal) (r : ChangeRecord) :
    (applyOld c r).changes = r.changes := by
  unfold applyOld; split <;> rfl

@[simp] theorem applyOld_rawData (c : JVal) (r : ChangeRecord) :
    (applyOld c r).rawData = r.rawData := by
  unfold applyOld; split <;> rfl

@[simp] theorem applyOld_changeTimestamp (c : JVal) (r : ChangeRecord) :
    (applyOld c r).changeTimestamp = r.changeTimestamp := by
  unfold applyOld; split <;> rfl

@[simp] theorem applyTs_primaryKey (c : JVal) (r : ChangeRecord) :
    (applyTs c r).primaryKey = r.primaryKey := by
  unfold applyTs; split <;> rfl

@[simp] theorem applyTs_changes (c : JVal) (r : ChangeRecord) :
    (applyTs c r).changes = r.changes := by
  unfold applyTs; split <;> rfl

@[simp] theorem applyTs_rawData (c : JVal) (r : ChangeRecord) :
    (applyTs c r).rawData = r.rawData := by
  unfold applyTs; split <;> rfl

/-- The changeTimestamp assignment of the ts step, for a record on which
it is still absent. -/
theorem applyTs_changeTimestamp (c : JVal) (r : ChangeRecord)
    (h : r.changeTimestamp = none) :
    (applyTs c r).changeTimestamp =
      (if truthy (jGet c "ts") then jGet c "ts"
       else if truthy (jGet c "timestamp") then jGet c "timestamp" else none) := by
  unfold applyTs
  by_cases h1 : truthy (jGet c "ts") = true <;>
    by_cases h2 : truthy (jGet c "timestamp") = true <;>
      simp [h1, h2, h]

/-- The raw payload is stored in the result object before the try block
runs, so it survives every path, including both throw points. -/
theorem processDatabaseChange_rawData (p : JVal) :
    (processDatabaseChange p).rawData = p := by
  unfold processDatabaseChange extractChange
  cases hpn : p.isNull with
  | true =>
    simp only [JVal.isNull_eq_true] at hpn
    subst hpn
    simp [initRecord, JVal.isNull]
  | false =>
    rcases hd : jGet p "data" with _ | v
    · simp [hpn, hd, initRecord]
    · rcases v with _ | b | n | s | xs | fs
      · simp [hpn, hd, initRecord]
      · simp [hpn, hd, initRecord]
      · simp [hpn, hd, initRecord]
      · simp [hpn, hd, initRecord]
      · rcases xs with _ | ⟨first, rest⟩
        · simp [hpn, hd, initRecord]
        · cases hfn : first.isNull <;> simp [hpn, hd, hfn, initRecord]
      · simp [hpn, hd, initRecord]

/-- C1: for every payload on which all optional fields (type, database,
table, data, old_data, ts, timestamp) are absent, processDatabaseChange
returns the record with changeType unknown, database, table and
primaryKey null and changes the empty mapping; and it never fails: it is
a total function, and for every input it returns a record that carries
the original payload in rawData. -/
theorem C1_normalize_defaults_and_total :
    (∀ p : JVal, allOptionalAbsent p = true →
      (processDatabaseChange p).changeType = JVal.str "unknown" ∧
      (processDatabaseChange p).database = JVal.null ∧
      (processDatabaseChange p).table = JVal.null ∧
      (processDatabaseChange p).primaryKey = JVal.null ∧
      (processDatabaseChange p).changes = JVal.obj []) ∧
    (∀ p : JVal, (processDatabaseChange p).rawData = p) := by
  constructor
  · intro p hp
    simp only [allOptionalAbsent, List.all_cons, List.all_nil, Bool.and_eq_true,
      Option.isNone_iff_eq_none, and_true] at hp
    obtain ⟨h1, h2, h3, h4, h5, h6, h7⟩ := hp
    cases hpn : p.isNull with
    | true =>
      simp only [JVal.isNull_eq_true] at hpn
      subst hpn
      simp [processDatabaseChange, extractChange, initRecord, JVal.isNull]
    | false =>
      simp [processDatabaseChange, extractChange, hpn, h1, h2, h3, h4, h5, h6, h7,
        applyType, applyDatabase, applyTable, applyOld, applyTs, truthy, initRecord]
  · exact processDatabaseChange_rawData

/-- Witness for C1 at two concrete payloads: an object with only an
unrecognized field, and a bare number. -/
theorem C1_witness :
    ((processDatabaseChange (JVal.obj [("other", JVal.num 3)])).changeType = JVal.str "unknown" ∧
     (processDatabaseChange (JVal.obj [("other", JVal.num 3)])).database = JVal.null ∧
     (processDatabaseChange (JVal.obj [("other", JVal.num 3)])).table = JVal.null ∧
     (processDatabaseChange (JVal.obj [("other", JVal.num 3)])).primaryKey = JVal.null ∧
     (processDatabaseChange (JVal.obj [("other", JVal.num 3)])).changes = JVal.obj []) ∧
    (processDatabaseChange (JVal.num 7)).rawData = JVal.num 7 :=
  ⟨C1_normalize_defaults_and_total.1 (JVal.obj [("other", JVal.num 3)]) rfl,
   C1_normalize_defaults_and_total.2 (JVal.num 7)⟩

/-- C8 counterexample: the payload whose data field is present but is
the empty array. The claim says changes is then the full data sequence
verbatim; the code only assigns changes when the array is non-empty, so
changes stays the empty mapping, which is not the empty array. -/
theorem C8_cex :
    jGet (JVal.obj [("data", JVal.arr [])]) "data" = some (JVal.arr []) ∧
    (processDatabaseChange (JVal.obj [("data", JVal.arr [])])).changes = JVal.obj [] ∧
    JVal.obj [] ≠ JVal.arr [] :=
  ⟨rfl, rfl, fun h => JVal.noConfusion h⟩

/-- C8 amended: changes is the full data sequence verbatim when data is
a non-empty array whose first row is not null, and the empty mapping when
data is absent; in particular, for the payload with data a one-row array
carrying id 1 and name a, primaryKey is the id-1 object and changes is the
full input sequence. -/
theorem C8_changes_full_sequence :
    (∀ (p first : JVal) (rest : List JVal),
      jGet p "data" = some (JVal.arr (first :: rest)) → first.isNull = false →
      (processDatabaseChange p).changes = JVal.arr (first :: rest)) ∧
    (∀ p : JVal, jGet p "data" = none →
      (processDatabaseChange p).changes = JVal.obj []) ∧
    ((processDatabaseChange
        (JVal.obj [("data", JVal.arr [JVal.obj [("id", JVal.num 1), ("name", JVal.str "a")]])])).primaryKey
        = JVal.obj [("id", JVal.num 1)] ∧
     (processDatabaseChange
        (JVal.obj [("data", JVal.arr [JVal.obj [("id", JVal.num 1), ("name", JVal.str "a")]])])).changes
        = JVal.arr [JVal.obj [("id", JVal.num 1), ("name", JVal.str "a")]]) := by
  refine ⟨?_, ?_, rfl, rfl⟩
  · intro p first rest hd hfn
    have hpn : p.isNull = false := by
      cases p <;> simp_all [jGet, JVal.isNull]
    simp [processDatabaseChange, extractChange, hpn, hd, hfn, initRecord]
  · intro p hd
    cases hpn : p.isNull with
    | true =>
      simp only [JVal.isNull_eq_true] at hpn
      subst hpn
      simp [processDatabaseChange, extractChange, initRecord, JVal.isNull]
    | false =>
      simp [processDatabaseChange, extractChange, hpn, hd, initRecord]

/-- Witness for C8 at concrete payloads: a one-row data array and a
payload without data. -/
theorem C8_witness :
    (processDatabaseChange (JVal.obj [("data", JVal.arr [JVal.num 7])])).changes
      = JVal.arr [JVal.num 7] ∧
    (processDatabaseChange (JVal.obj [("x", JVal.num 1)])).changes = JVal.obj [] :=
  ⟨C8_changes_full_sequence.1 (JVal.obj [("data", JVal.arr [JVal.num 7])]) (JVal.num 7) [] rfl rfl,
   C8_changes_full_sequence.2.1 (JVal.obj [("x", JVal.num 1)]) rfl⟩

/-- C9 counterexample: a payload with ts present but equal to 0. The
claim says changeTimestamp is then payload.ts; the code tests the
JavaScript truthiness of ts, so a present but falsy ts of 0 falls back
to timestamp, yielding 5 instead of 0. -/
theorem C9_cex :
    jGet (JVal.obj [("ts", JVal.num 0), ("timestamp", JVal.num 5)]) "ts"
      = some (JVal.num 0) ∧
    (processDatabaseChange (JVal.obj [("ts", JVal.num 0), ("timestamp", JVal.num 5)])).changeTimestamp
      = some (JVal.num 5) ∧
    (some (JVal.num 5) : Option JVal) ≠ some (JVal.num 0) := by
  refine ⟨rfl, rfl, ?_⟩
  intro h
  simp only [Option.some.injEq, JVal.num.injEq] at h
  exact absurd h (by decide)

/-- C9 amended: changeTimestamp is payload.ts when ts is truthy, else
payload.timestamp when timestamp is truthy, else absent — provided the
extraction does not abort at a null first data row (where the thrown
TypeError skips the timestamp step altogether). -/
theorem C9_changeTimestamp_truthy (p : JVal) (h : abortsAtFirstRow p = false) :
    (processDatabaseChange p).changeTimestamp =
      (if truthy (jGet p "ts") then jGet p "ts"
       else if truthy (jGet p "timestamp") then jGet p "timestamp" else none) := by
  cases hpn : p.isNull with
  | true =>
    simp only [JVal.isNull_eq_true] at hpn
    subst hpn
    simp [processDatabaseChange, extractChange, initRecord, JVal.isNull, jGet, truthy]
  | false =>
    unfold processDatabaseChange extractChange
    rcases hd : jGet p "data" with _ | v
    · simp [hpn, hd, applyTs_changeTimestamp, initRecord]
    · rcases v with _ | b | n | s | xs | fs
      · simp [hpn, hd, applyTs_changeTimestamp, initRecord]
      · simp [hpn, hd, applyTs_changeTimestamp, initRecord]
      · simp [hpn, hd, applyTs_changeTimestamp, initRecord]
      · simp [hpn, hd, applyTs_changeTimestamp, initRecord]
      · rcases xs with _ | ⟨first, rest⟩
        · simp [hpn, hd, applyTs_changeTimestamp, initRecord]
        · have hfn : first.isNull = false := by
            unfold abortsAtFirstRow at h
            rw [hd] at h
            exact h
          simp [hpn, hd, hfn, applyTs_changeTimestamp, initRecord]
      · simp [hpn, hd, applyTs_changeTimestamp, initRecord]

/-- Witness for C9 at the payload with ts 0 and timestamp 5: the record
carries timestamp 5, the fallback value. -/
theorem C9_witness :
    (processDatabaseChange (JVal.obj [("ts", JVal.num 0), ("timestamp", JVal.num 5)])).changeTimestamp
      = (if truthy (jGet (JVal.obj [("ts", JVal.num 0), ("timestamp", JVal.num 5)]) "ts")
         then jGet (JVal.obj [("ts", JVal.num 0), ("timestamp", JVal.num 5)]) "ts"
         else if truthy (jGet (JVal.obj [("ts", JVal.num 0), ("timestamp", JVal.num 5)]) "timestamp")
         then jGet (JVal.obj [("ts", JVal.num 0), ("timestamp", JVal.num 5)]) "timestamp" else none) :=
  C9_changeTimestamp_truthy (JVal.obj [("ts", JVal.num 0), ("timestamp", JVal.num 5)]) rfl

/-- C10 counterexample: data is the non-empty array with the single row
null, which has no id property. The claim says only primaryKey degrades
while changes is still the full array; the code throws on firstRow.id
before assigning changes, so changes stays the empty mapping. -/
theorem C10_cex :
    jGet (JVal.obj [("data", JVal.arr [JVal.null])]) "data"
      = some (JVal.arr [JVal.null]) ∧
    jGet JVal.null "id" = none ∧
    (processDatabaseChange (JVal.obj [("data", JVal.arr [JVal.null])])).primaryKey = JVal.null ∧
    (processDatabaseChange (JVal.obj [("data", JVal.arr [JVal.null])])).changes = JVal.obj [] ∧
    JVal.obj [] ≠ JVal.arr [JVal.null] :=
  ⟨rfl, rfl, rfl, rfl, fun h => JVal.noConfusion h⟩

/-- C10 amended: when data is a non-empty array whose first row is not
null and has no id property, primaryKey stays null while changes is
still assigned the full data array. -/
theorem C10_missing_id_degrades_primaryKey_only (p first : JVal) (rest : List JVal)
    (hd : jGet p "data" = some (JVal.arr (first :: rest)))
    (hfn : first.isNull = false)
    (hid : jGet first "id" = none) :
    (processDatabaseChange p).primaryKey = JVal.null ∧
    (processDatabaseChange p).changes = JVal.arr (first :: rest) := by
  have hpn : p.isNull = false := by
    cases p <;> simp_all [jGet, JVal.isNull]
  constructor <;>
    simp [processDatabaseChange, extractChange, hpn, hd, hfn, applyId, hid, initRecord]

/-- Witness for C10 at a payload whose single data row has only a name
field. -/
theorem C10_witness :
    (processDatabaseChange (JVal.obj [("data", JVal.arr [JVal.obj [("name", JVal.str "a")]])])).primaryKey
      = JVal.null ∧
    (processDatabaseChange (JVal.obj [("data", JVal.arr [JVal.obj [("name", JVal.str "a")]])])).changes
      = JVal.arr [JVal.obj [("name", JVal.str "a")]] :=
  C10_missing_id_degrades_primaryKey_only
    (JVal.obj [("data", JVal.arr [JVal.obj [("name", JVal.str "a")]])])
    (JVal.obj [("name", JVal.str "a")]) [] rfl rfl rfl

/-- C2: a processing error is caught inside processMessage, so the loop
continues: for a malformed (non-parseable) message followed by a valid
one, the combined action stream is exactly the two parse-failure log
lines for the first message followed by the emission of the normalized
record for the second — the malformed message emits nothing and does not
halt the stream. -/
theorem C2_failure_isolation (parse : String → Option JVal) (now topic : String)
    (partition : Int) (m1 m2 : RawMessage) (s1 s2 : String) (v : JVal)
    (h1 : m1.value = some s1) (h1ne : s1 ≠ "") (h1p : parse s1 = none)
    (h2 : m2.value = some s2) (h2ne : s2 ≠ "") (h2p : parse s2 = some v) :
    processMessages parse now topic partition [m1, m2] =
      [MsgAction.logParseFailed, MsgAction.logRawMessage s1,
       MsgAction.emit (buildLogEntry now topic partition m2.offset m2.timestamp
         (Int.ofNat s2.length) (processDatabaseChange v))] := by
  simp [processMessages, processMessage, h1, h2, h1p, h2p, h1ne, h2ne]

/-- Witness for C2: the message bad fails the concrete parse, the
message ok parses to the empty object; the stream logs the failure and
still emits for the second message. -/
theorem C2_witness :
    processMessages (fun s => if s = "ok" then some (JVal.obj []) else none)
      "2024-01-01" "tidb-cdc-changes" 0
      [⟨some "bad", "41", "1700"⟩, ⟨some "ok", "42", "1701"⟩] =
      [MsgAction.logParseFailed, MsgAction.logRawMessage "bad",
       MsgAction.emit (buildLogEntry "2024-01-01" "tidb-cdc-changes" 0 "42" "1701"
         (Int.ofNat ("ok".length)) (processDatabaseChange (JVal.obj [])))] :=
  C2_failure_isolation (fun s => if s = "ok" then some (JVal.obj []) else none)
    "2024-01-01" "tidb-cdc-changes" 0
    ⟨some "bad", "41", "1700"⟩ ⟨some "ok", "42", "1701"⟩ "bad" "ok" (JVal.obj [])
    rfl (by decide) rfl rfl (by decide) rfl

/-- C6: a message whose payload body is absent (null value) or empty
yields exactly the empty-message warning, for every parse function —
nothing is parsed and no record is emitted. -/
theorem C6_empty_payload_skipped (parse : String → Option JVal) (now topic : String)
    (partition : Int) (m : RawMessage)
    (h : m.value = none ∨ m.value = some "") :
    processMessage parse now topic partition m = [MsgAction.warnEmpty] := by
  rcases h with h | h <;> simp [processMessage, h]

/-- Witness for C6 at a message with a null value buffer and one with an
empty body. -/
theorem C6_witness :
    processMessage (fun _ => some JVal.null) "2024-01-01" "tidb-cdc-changes" 0
      ⟨none, "7", "1700"⟩ = [MsgAction.warnEmpty] ∧
    processMessage (fun _ => some JVal.null) "2024-01-01" "tidb-cdc-changes" 0
      ⟨some "", "8", "1700"⟩ = [MsgAction.warnEmpty] :=
  ⟨C6_empty_payload_skipped (fun _ => some JVal.null) "2024-01-01" "tidb-cdc-changes" 0
      ⟨none, "7", "1700"⟩ (Or.inl rfl),
   C6_empty_payload_skipped (fun _ => some JVal.null) "2024-01-01" "tidb-cdc-changes" 0
      ⟨some "", "8", "1700"⟩ (Or.inr rfl)⟩

/-- C4 counterexample: a parsed update payload whose record carries both
oldData and changeTimestamp. The claim says all Change Record fields
appear in the emitted entry; the entry the code builds has no oldData,
changeTimestamp, rawPayload or rawData field at all. -/
theorem C4_cex :
    processMessage
      (fun _ => some (JVal.obj [("type", JVal.str "update"),
        ("old_data", JVal.obj [("id", JVal.num 1)]),
        ("data", JVal.arr [JVal.obj [("id", JVal.num 1)]]),
        ("ts", JVal.num 9)]))
      "2024-01-01" "tidb-cdc-changes" 0 ⟨some "x", "5", "1700"⟩ =
      [MsgAction.emit (buildLogEntry "2024-01-01" "tidb-cdc-changes" 0 "5" "1700"
        (Int.ofNat ("x".length))
        (processDatabaseChange (JVal.obj [("type", JVal.str "update"),
          ("old_data", JVal.obj [("id", JVal.num 1)]),
          ("data", JVal.arr [JVal.obj [("id", JVal.num 1)]]),
          ("ts", JVal.num 9)])))] ∧
    (processDatabaseChange (JVal.obj [("type", JVal.str "update"),
      ("old_data", JVal.obj [("id", JVal.num 1)]),
      ("data", JVal.arr [JVal.obj [("id", JVal.num 1)]]),
      ("ts", JVal.num 9)])).oldData.isSome = true ∧
    (processDatabaseChange (JVal.obj [("type", JVal.str "update"),
      ("old_data", JVal.obj [("id", JVal.num 1)]),
      ("data", JVal.arr [JVal.obj [("id", JVal.num 1)]]),
      ("ts", JVal.num 9)])).changeTimestamp.isSome = true ∧
    hasField (buildLogEntry "2024-01-01" "tidb-cdc-changes" 0 "5" "1700"
      (Int.ofNat ("x".length))
      (processDatabaseChange (JVal.obj [("type", JVal.str "update"),
        ("old_data", JVal.obj [("id", JVal.num 1)]),
        ("data", JVal.arr [JVal.obj [("id", JVal.num 1)]]),
        ("ts", JVal.num 9)]))) "oldData" = false ∧
    hasField (buildLogEntry "2024-01-01" "tidb-cdc-changes" 0 "5" "1700"
      (Int.ofNat ("x".length))
      (processDatabaseChange (JVal.obj [("type", JVal.str "update"),
        ("old_data", JVal.obj [("id", JVal.num 1)]),
        ("data", JVal.arr [JVal.obj [("id", JVal.num 1)]]),
        ("ts", JVal.num 9)]))) "changeTimestamp" = false ∧
    hasField (buildLogEntry "2024-01-01" "tidb-cdc-changes" 0 "5" "1700"
      (Int.ofNat ("x".length))
      (processDatabaseChange (JVal.obj [("type", JVal.str "update"),
        ("old_data", JVal.obj [("id", JVal.num 1)]),
        ("data", JVal.arr [JVal.obj [("id", JVal.num 1)]]),
        ("ts", JVal.num 9)]))) "rawPayload" = false ∧
    hasField (buildLogEntry "2024-01-01" "tidb-cdc-changes" 0 "5" "1700"
      (Int.ofNat ("x".length))
      (processDatabaseChange (JVal.obj [("type", JVal.str "update"),
        ("old_data", JVal.obj [("id", JVal.num 1)]),
        ("data", JVal.arr [JVal.obj [("id", JVal.num 1)]]),
        ("ts", JVal.num 9)]))) "rawData" = false :=
  ⟨rfl, rfl, rfl, rfl, rfl, rfl, rfl⟩

/-- C4 amended: every successfully parsed message yields exactly one
emitted entry, whose fields are the wall-clock timestamp, the fixed
source tag, the broker metadata, and the Change Record fields
changeType, table, database, primaryKey and changes; oldData,
changeTimestamp and rawPayload are not part of the entry. -/
theorem C4_emitted_entry_fields :
    (∀ (parse : String → Option JVal) (now topic : String) (partition : Int)
       (m : RawMessage) (s : String) (v : JVal),
      m.value = some s → s ≠ "" → parse s = some v →
      processMessage parse now topic partition m =
        [MsgAction.emit (buildLogEntry now topic partition m.offset m.timestamp
          (Int.ofNat s.length) (processDatabaseChange v))]) ∧
    (∀ (now topic : String) (partition : Int) (off kts : String) (size : Int)
       (pd : ChangeRecord),
      jKeys (buildLogEntry now topic partition off kts size pd) =
        ["timestamp", "source", "topic", "partition", "offset", "changeType",
         "table", "database", "primaryKey", "changes", "metadata"] ∧
      jGet (buildLogEntry now topic partition off kts size pd) "timestamp"
        = some (JVal.str now) ∧
      jGet (buildLogEntry now topic partition off kts size pd) "source"
        = some (JVal.str "database-cdc") ∧
      jGet (buildLogEntry now topic partition off kts size pd) "topic"
        = some (JVal.str topic) ∧
      jGet (buildLogEntry now topic partition off kts size pd) "partition"
        = some (JVal.num partition) ∧
      jGet (buildLogEntry now topic partition off kts size pd) "offset"
        = some (JVal.str off) ∧
      jGet (buildLogEntry now topic partition off kts size pd) "changeType"
        = some pd.changeType ∧
      jGet (buildLogEntry now topic partition off kts size pd) "table"
        = some pd.table ∧
      jGet (buildLogEntry now topic partition off kts size pd) "database"
        = some pd.database ∧
      jGet (buildLogEntry now topic partition off kts size pd) "primaryKey"
        = some pd.primaryKey ∧
      jGet (buildLogEntry now topic partition off kts size pd) "changes"
        = some pd.changes ∧
      jGet (buildLogEntry now topic partition off kts size pd) "metadata"
        = some (JVal.obj [("kafkaTimestamp", JVal.str kts),
            ("messageSize", JVal.num size)]) ∧
      hasField (buildLogEntry now topic partition off kts size pd) "oldData" = false ∧
      hasField (buildLogEntry now topic partition off kts size pd) "changeTimestamp" = false ∧
      hasField (buildLogEntry now topic partition off kts size pd) "rawPayload" = false) := by
  constructor
  · intro parse now topic partition m s v hv hne hp
    simp [processMessage, hv, hne, hp]
  · intro now topic partition off kts size pd
    exact ⟨rfl, rfl, rfl, rfl, rfl, rfl, rfl, rfl, rfl, rfl, rfl, rfl, rfl, rfl, rfl⟩

/-- Witness for C4 amended at a concrete message and record. -/
theorem C4_witness :
    processMessage (fun _ => some JVal.null) "2024-01-01" "t" 1 ⟨some "n", "9", "1702"⟩ =
      [MsgAction.emit (buildLogEntry "2024-01-01" "t" 1 "9" "1702"
        (Int.ofNat ("n".length)) (processDatabaseChange JVal.null))] ∧
    jKeys (buildLogEntry "2024-01-01" "t" 1 "9" "1702" (Int.ofNat ("n".length))
        (processDatabaseChange JVal.null)) =
      ["timestamp", "source", "topic", "partition", "offset", "changeType",
       "table", "database", "primaryKey", "changes", "metadata"] :=
  ⟨C4_emitted_entry_fields.1 (fun _ => some JVal.null) "2024-01-01" "t" 1
      ⟨some "n", "9", "1702"⟩ "n" JVal.null rfl (by decide) rfl,
   (C4_emitted_entry_fields.2 "2024-01-01" "t" 1 "9" "1702" (Int.ofNat ("n".length))
      (processDatabaseChange JVal.null)).1⟩

/-- C7: the liveness endpoint reports healthy exactly when the isRunning
flag is set, which holds exactly after a start whose connect and
subscribe succeeded and not before startup or after a completed stop;
the response object has exactly the fields status, timestamp and
service, with the fixed service name. -/
theorem C7_liveness_endpoint :
    (∀ (events : List LifeEvent) (now : String),
      (jGet (healthResponse (runningAfter events) now) "status"
          = some (JVal.str "healthy") ↔ runningAfter events = true) ∧
      jGet (healthResponse (runningAfter events) now) "status"
        = some (JVal.str (if runningAfter events then "healthy" else "unhealthy")) ∧
      jKeys (healthResponse (runningAfter events) now)
        = ["status", "timestamp", "service"] ∧
      jGet (healthResponse (runningAfter events) now) "timestamp"
        = some (JVal.str now) ∧
      jGet (healthResponse (runningAfter events) now) "service"
        = some (JVal.str "cdc-consumer")) ∧
    runningAfter [] = false ∧
    (∀ events : List LifeEvent,
      runningAfter (events ++ [LifeEvent.startSuccess]) = true) ∧
    (∀ events : List LifeEvent,
      runningAfter (events ++ [LifeEvent.stopSuccess]) = false) := by
  refine ⟨?_, rfl, ?_, ?_⟩
  · intro events now
    cases h : runningAfter events <;>
      simp [healthResponse, jGet, jLookup, jKeys, h]
  · intro events
    simp [runningAfter, List.foldl_append, stepRunning]
  · intro events
    simp [runningAfter, List.foldl_append, stepRunning]

/-- C5 counterexample: with the processor running and a disconnect that
fails, the handler trace ends at the disconnect call — the rejection
propagates out of stop and out of the async handler, so no failure log
follows and the normal exit with status 0 is never reached, contrary to
the claim that a failed disconnect is logged and the shutdown path still
exits normally. -/
theorem C5_cex :
    signalHandlerTrace true true =
      [SigAction.logReceived, SigAction.logStopping, SigAction.disconnectCall] ∧
    SigAction.exitZero ∉ signalHandlerTrace true true := by
  decide

/-- C5 amended: on a termination signal, when the processor is running
and disconnect succeeds, the connection is disconnected before the
process exits with status 0; when the processor is not running the
handler exits directly; but a failed disconnect is escalated, not
logged — the handler stops at the disconnect call and process exit 0 is
never reached. -/
theorem C5_shutdown_disconnect :
    signalHandlerTrace true false =
      [SigAction.logReceived, SigAction.logStopping, SigAction.disconnectCall,
       SigAction.logStopped, SigAction.exitZero] ∧
    signalHandlerTrace false false = [SigAction.logReceived, SigAction.exitZero] ∧
    (∀ disconnectFails : Bool,
      signalHandlerTrace false disconnectFails
        = [SigAction.logReceived, SigAction.exitZero]) ∧
    SigAction.exitZero ∉ signalHandlerTrace true true := by
  decide

/-- C3: the code evaluated at the failing scenario. In the environment
where the first attempt has a working probe but a failing connect or
subscribe, and every later attempt would fully succeed, the startup
terminates with exit status 1 inside processor.start on attempt 1 — the
retry loop never reaches attempt 2, although the claim says a connect
failure is retried and attempt 2 would have reached the running state.
The same environment restricted to probe failures is retried: with the
probe alone failing on attempt 1, attempt 2 reaches the running state. -/
theorem C3_connect_failure_not_retried :
    startConsumer (fun attempt =>
      if attempt = 1 then ⟨true, false⟩ else ⟨true, true⟩) =
      StartupResult.exitStartFailure ∧
    ((fun attempt => if attempt = 1 then (⟨true, false⟩ : AttemptOutcome)
        else ⟨true, true⟩) 2).probeOk = true ∧
    ((fun attempt => if attempt = 1 then (⟨true, false⟩ : AttemptOutcome)
        else ⟨true, true⟩) 2).startOk = true ∧
    startConsumer (fun attempt =>
      if attempt = 1 then ⟨false, true⟩ else ⟨true, true⟩) =
      StartupResult.running 2 :=
  ⟨rfl, rfl, rfl, rfl⟩
